import Mathlib

/-!
Shallow embedding of the grib2csv converter (src/lib.rs) and proofs about
its run-length decoder, grid walker, boundary filter and section parser.

Machine integers are modelled as `Nat` with explicit reduction modulo
`2^16`, `2^32` or `2^64` wherever the Rust code performs `u16`/`u32`/`u64`
arithmetic that can wrap (release-mode semantics).  Operations that panic in
every build profile (a failed `assert!`, an out-of-range `Vec` index, a
division by zero) are modelled by `Option`, `none` standing for the panic.
-/

/-- `2^16`, the modulus of `u16` arithmetic. -/
def U16 : Nat := 2 ^ 16

/-- `2^32`, the modulus of `u32` arithmetic. -/
def U32 : Nat := 2 ^ 32

/-- `2^64`, the modulus of `u64` arithmetic. -/
def U64 : Nat := 2 ^ 64

/-- Wrapping `u32` addition. -/
def add32 (a b : Nat) : Nat := (a + b) % U32

/-- Wrapping `u32` subtraction (two's-complement wraparound on underflow). -/
def sub32 (a b : Nat) : Nat := (a + U32 - b % U32) % U32

/-- Wrapping `u32` multiplication. -/
def mul32 (a b : Nat) : Nat := (a * b) % U32

/-- Wrapping `u32` exponentiation (`u32::pow` with wrapping overflow). -/
def pow32 (b e : Nat) : Nat := (b ^ e) % U32

/-- The `as u32` cast: truncation to the low 32 bits. -/
def cast32 (a : Nat) : Nat := a % U32

/-- Wrapping `u64` subtraction. -/
def sub64 (a b : Nat) : Nat := (a + U64 - b % U64) % U64

/-- Wrapping `u64` multiplication. -/
def mul64 (a b : Nat) : Nat := (a * b) % U64

/-- Wrapping `u16` subtraction. -/
def sub16 (a b : Nat) : Nat := (a + U16 - b % U16) % U16

/-- Wrapping `u16` exponentiation. -/
def pow16 (b e : Nat) : Nat := (b ^ e) % U16

/-- Embeds `move_lattice_for_missing_values` (src/lib.rs:319-350).  The code
divides by `lattice_width = easternmost - westernmost`; a zero width panics
(`none`).  The `u64` residual subtraction and the `u32` additions wrap as in
a release build. -/
def move_lattice_for_missing_values (longitude latitude count longitude_increment
    latitude_increment westernmost easternmost : Nat) : Option (Nat × Nat) :=
  let lattice_width := sub32 easternmost westernmost
  if lattice_width = 0 then none else
  let sum_of_lon_inc := mul64 longitude_increment count
  let lat_inc_times := sum_of_lon_inc / lattice_width
  let latitude := sub32 latitude (mul32 latitude_increment (cast32 lat_inc_times))
  let longitude := add32 longitude
    (cast32 (sub64 (sum_of_lon_inc % lattice_width) (mul64 longitude_increment lat_inc_times)))
  if easternmost < longitude then
    some (add32 westernmost (sub32 (sub32 longitude easternmost) longitude_increment),
          sub32 latitude latitude_increment)
  else
    some (longitude, latitude)

/-- Modelled from the spec: the naive cell-by-cell cursor advance that, `count`
times, adds `longitude_increment` to the longitude and, whenever the longitude
exceeds `easternmost`, resets it to `westernmost` and subtracts
`latitude_increment` from the latitude.  This is also exactly the per-cell
cursor update of `Grib2Csv::output_values` (src/lib.rs:280-284). -/
def naive_move (count longitude latitude longitude_increment latitude_increment
    westernmost easternmost : Nat) : Nat × Nat :=
  match count with
  | 0 => (longitude, latitude)
  | n + 1 =>
    let longitude2 := add32 longitude longitude_increment
    if easternmost < longitude2 then
      naive_move n westernmost (sub32 latitude latitude_increment)
        longitude_increment latitude_increment westernmost easternmost
    else
      naive_move n longitude2 latitude
        longitude_increment latitude_increment westernmost easternmost

/-- Embeds `expand_run_length` (src/lib.rs:944-963).  The leading
`assert!(values[0] <= maxv)` (and the `values[0]` access itself) panic on a
bad set, modelled as `none`.  The `u32` products, powers and sum wrap. -/
def expand_run_length (values : List Nat) (maxv lngu : Nat) : Option (Nat × Nat) :=
  match values with
  | [] => none
  | v :: rest =>
    if maxv < v then none
    else if rest = [] then some (v, 1)
    else
      let count :=
        ((rest.enum.map fun p => mul32 (pow32 lngu p.1) (sub32 p.2 (maxv + 1))).sum) % U32
      some (v, add32 count 1)

/-- The mixed-radix repeat count the spec describes for a set with at least
one continuation code: the i-th continuation code (0-indexed here) contributes
`lngu^i * (codes[i] - (maxv + 1))`; the repeat count is the sum plus 1
(the plus 1 is added by the caller of this definition). -/
def mixed_radix_count (rest : List Nat) (maxv lngu : Nat) : Nat :=
  ((rest.enum.map fun p => lngu ^ p.1 * (p.2 - (maxv + 1))).sum)

/-- Embeds `Boundary` (src/lib.rs:54-60): four optional micro-degree bounds. -/
structure Boundary where
  northernmost : Option Nat
  southernmost : Option Nat
  westernmost : Option Nat
  easternmost : Option Nat

/-- Embeds `Boundary::contains` (src/lib.rs:62-87): each configured bound that
is strictly exceeded returns `false` early; the short-circuit conjunction
below checks the four bounds in the source's order. -/
def Boundary.contains (b : Boundary) (longitude latitude : Nat) : Bool :=
  !(b.northernmost.any fun northernmost => northernmost < latitude) &&
  (!(b.southernmost.any fun southernmost => latitude < southernmost) &&
  (!(b.westernmost.any fun westernmost => longitude < westernmost) &&
  !(b.easternmost.any fun easternmost => easternmost < longitude)))

/-- The spec's reading of the boundary filter: a coordinate is contained iff
it is not strictly outside any configured bound; an absent bound never
excludes, and a coordinate equal to a configured bound is contained. -/
def inside_boundary (b : Boundary) (longitude latitude : Nat) : Prop :=
  (∀ northernmost ∈ b.northernmost, latitude ≤ northernmost) ∧
  (∀ southernmost ∈ b.southernmost, southernmost ≤ latitude) ∧
  (∀ westernmost ∈ b.westernmost, westernmost ≤ longitude) ∧
  (∀ easternmost ∈ b.easternmost, longitude ≤ easternmost)

/-- Embeds `Section3` (src/lib.rs:531-547): the grid-definition data. -/
structure Section3 where
  number_of_points : Nat
  northernmost : Nat
  westernmost : Nat
  southernmost : Nat
  easternmost : Nat
  longitude_increment : Nat
  latitude_increment : Nat

/-- Embeds `Section5` (src/lib.rs:748-761): the data-representation data. -/
structure Section5 where
  number_of_points : Nat
  bits_per_data : Nat
  max_level_at_file : Nat
  max_level : Nat
  level_values : List Nat

/-- Embeds the `0 < level` branch of `Grib2Csv::output_values`
(src/lib.rs:269-285): for each of `count` cells, emit the row when the
boundary contains the cursor (the level-table index panics - `none` - when
`level - 1` is out of range), then advance the cursor one cell east with row
wraparound. -/
def output_cells (s3 : Section3) (s5 : Section5) (boundary : Boundary) (level : Nat) :
    Nat → Nat → Nat → Option (List (Nat × Nat × Nat) × Nat × Nat)
  | 0, longitude, latitude => some ([], longitude, latitude)
  | count + 1, longitude, latitude =>
    match
      (if boundary.contains longitude latitude then
        match s5.level_values.get? (level - 1) with
        | some value => some [(longitude, latitude, value)]
        | none => none
      else
        some []) with
    | none => none
    | some rows =>
      let longitude2 := add32 longitude s3.longitude_increment
      let next :=
        if s3.easternmost < longitude2 then
          (s3.westernmost, sub32 latitude s3.latitude_increment)
        else
          (longitude2, latitude)
      match output_cells s3 s5 boundary level count next.1 next.2 with
      | none => none
      | some out => some (rows ++ out.1, out.2)

/-- Embeds `Grib2Csv::output_values` (src/lib.rs:260-300): a positive level
walks cell-by-cell and emits; level 0 jumps the cursor with
`move_lattice_for_missing_values` and emits nothing. -/
def output_values (s3 : Section3) (s5 : Section5) (boundary : Boundary)
    (level count longitude latitude : Nat) : Option (List (Nat × Nat × Nat) × Nat × Nat) :=
  if 0 < level then
    output_cells s3 s5 boundary level count longitude latitude
  else
    (move_lattice_for_missing_values longitude latitude count s3.longitude_increment
      s3.latitude_increment s3.westernmost s3.easternmost).map fun p => ([], p)

/-- The mutable state of the `convert` decode loop (src/lib.rs:211-233): the
accumulating run-length set, the number of grid points read, the scan cursor
and the rows written so far. -/
structure S7State where
  run_length : List Nat
  number_of_read : Nat
  longitude : Nat
  latitude : Nat
  rows : List (Nat × Nat × Nat)

/-- One iteration of the `convert` byte loop (src/lib.rs:215-233): a codeword
`≤ maxv` arriving on a non-empty set closes the set - decode it, advance the
cursor and the read count, clear the set - and every codeword is then pushed
onto the set. -/
def convert_step (s3 : Section3) (s5 : Section5) (boundary : Boundary) (maxv lngu : Nat)
    (st : S7State) (value : Nat) : Option S7State :=
  if value ≤ maxv ∧ st.run_length ≠ [] then
    match expand_run_length st.run_length maxv lngu with
    | none => none
    | some lc =>
      match output_values s3 s5 boundary lc.1 lc.2 st.longitude st.latitude with
      | none => none
      | some out =>
        some ⟨[value], add32 st.number_of_read lc.2, out.2.1, out.2.2, st.rows ++ out.1⟩
  else
    some ⟨st.run_length ++ [value], st.number_of_read, st.longitude, st.latitude, st.rows⟩

/-- The `convert` byte loop (src/lib.rs:215-233) over the run-length octet
stream. -/
def convert_loop (s3 : Section3) (s5 : Section5) (boundary : Boundary) (maxv lngu : Nat)
    (st : S7State) : List Nat → Option S7State
  | [] => some st
  | value :: rest =>
    match convert_step s3 s5 boundary maxv lngu st value with
    | none => none
    | some st2 => convert_loop s3 s5 boundary maxv lngu st2 rest

/-- The trailing decode of the still-open set after the byte loop
(src/lib.rs:234-245). -/
def convert_finish (s3 : Section3) (s5 : Section5) (boundary : Boundary) (maxv lngu : Nat)
    (st : S7State) : Option S7State :=
  if st.run_length = [] then some st
  else
    match expand_run_length st.run_length maxv lngu with
    | none => none
    | some lc =>
      match output_values s3 s5 boundary lc.1 lc.2 st.longitude st.latitude with
      | none => none
      | some out =>
        some ⟨[], add32 st.number_of_read lc.2, out.2.1, out.2.2, st.rows ++ out.1⟩

/-- The `lngu` radix `convert` computes (src/lib.rs:207-209):
`2^nbit - 1 - maxv` in wrapping `u16` arithmetic. -/
def convert_lngu (s5 : Section5) : Nat :=
  sub16 (sub16 (pow16 2 s5.bits_per_data) 1) s5.max_level_at_file

/-- Embeds the section-7 processing of `Grib2Csv::convert`
(src/lib.rs:205-253) on the run-length octet stream `bytes`: decode the whole
stream from the cursor `(westernmost, northernmost)`, then fail
(`Except.error`) exactly when the accumulated point count differs from
section 3's `number_of_points`, else succeed with the emitted rows.  `none`
models a panic while decoding. -/
def convert_section7 (s3 : Section3) (s5 : Section5) (boundary : Boundary)
    (bytes : List Nat) : Option (Except Unit (List (Nat × Nat × Nat))) :=
  match convert_loop s3 s5 boundary s5.max_level_at_file (convert_lngu s5)
      ⟨[], 0, s3.westernmost, s3.northernmost, []⟩ bytes with
  | none => none
  | some st1 =>
    match convert_finish s3 s5 boundary s5.max_level_at_file (convert_lngu s5) st1 with
    | none => none
    | some st2 =>
      if st2.number_of_read ≠ s3.number_of_points then
        some (Except.error ())
      else
        some (Except.ok st2.rows)

/-- The decomposition of the octet stream into run-length sets that the
`convert` loop induces, continuing an already-accumulated set `acc`: a
codeword `≤ maxv` closes a non-empty set and opens the next one with itself;
the final non-empty set is the last run. -/
def split_runs_from (maxv : Nat) : List Nat → List Nat → List (List Nat)
  | [], acc => if acc = [] then [] else [acc]
  | value :: rest, acc =>
    if value ≤ maxv ∧ acc ≠ [] then acc :: split_runs_from maxv rest [value]
    else split_runs_from maxv rest (acc ++ [value])

/-- The repeat count one set decodes to (0 for a set the decoder panics on). -/
def run_count (maxv lngu : Nat) (run : List Nat) : Nat :=
  ((expand_run_length run maxv lngu).map fun lc => lc.2).getD 0

/-- The total cell count over all decoded runs of the stream, as a `u32`. -/
def total_run_count (maxv lngu : Nat) (bytes : List Nat) : Nat :=
  (((split_runs_from maxv bytes []).map (run_count maxv lngu)).sum) % U32

/-- A set the decoder's precondition accepts: non-empty with first element
`≤ maxv` (the default `maxv + 1` makes the empty set fail the test). -/
def run_head_ok (maxv : Nat) (run : List Nat) : Prop :=
  run.headD (maxv + 1) ≤ maxv

/-- Embeds `read_u8` (src/lib.rs:353-361) on a byte list: fails at end of
stream. -/
def read_u8 : List Nat → Option (Nat × List Nat)
  | [] => none
  | b :: rest => some (b, rest)

/-- Embeds `read_u16` (src/lib.rs:364-372): two big-endian bytes. -/
def read_u16 : List Nat → Option (Nat × List Nat)
  | b1 :: b2 :: rest => some (b1 * 256 + b2, rest)
  | _ => none

/-- Embeds `read_u32` (src/lib.rs:375-383): four big-endian bytes. -/
def read_u32 : List Nat → Option (Nat × List Nat)
  | b1 :: b2 :: b3 :: b4 :: rest => some (((b1 * 256 + b2) * 256 + b3) * 256 + b4, rest)
  | _ => none

/-- Section 0 document domain constant (src/lib.rs:14). -/
def DOCUMENT_DOMAIN : Nat := 0

/-- Section 0 GRIB version constant (src/lib.rs:16). -/
def GRIB_VERSION : Nat := 2

/-- Section 1 master table version constant (src/lib.rs:18). -/
def GRIB_MASTER_TABLE_VERSION : Nat := 2

/-- Section 1 local table version constant (src/lib.rs:20). -/
def GRIB_LOCAL_TABLE_VERSION : Nat := 1

/-- Section 1 creation status constant (src/lib.rs:22). -/
def CREATION_STATUS : Nat := 0

/-- Section 1 document kind constant (src/lib.rs:24). -/
def DOCUMENT_KIND : Nat := 0

/-- Section 3 grid system definition constant (src/lib.rs:26). -/
def GRID_SYSTEM_DEFINITION : Nat := 0

/-- Section 3 grid system template constant (src/lib.rs:28). -/
def GRID_SYSTEM_DEFINITION_TEMPLATE : Nat := 0

/-- Section 3 earth figure constant (src/lib.rs:30). -/
def EARTH_FIGURE : Nat := 4

/-- Section 3 point count along a meridian (src/lib.rs:32). -/
def NUMBER_OF_POINT_AT_VERTICAL : Nat := 2560

/-- Section 3 point count along a parallel (src/lib.rs:34). -/
def NUMBER_OF_POINT_AT_HORIZONTAL : Nat := 3360

/-- Section 3 creation range angle constant (src/lib.rs:36). -/
def CREATION_RANGE_ANGLE : Nat := 0

/-- Section 3 scanning mode constant (src/lib.rs:38). -/
def SCANNING_MODE : Nat := 0

/-- Section 5 data representation template constant (src/lib.rs:40). -/
def DOCUMENT_EXPRESSION_TEMPLATE : Nat := 200

/-- Section 5 bits per data constant (src/lib.rs:42). -/
def BITS_PER_DATA : Nat := 8

/-- Section 5 data value scale factor constant (src/lib.rs:44). -/
def DATA_VALUE_FACTOR : Nat := 1

/-- Proleptic Gregorian leap years, as the `time` crate uses. -/
def is_leap_year (year : Nat) : Bool :=
  (year % 4 = 0 && !(year % 100 = 0)) || year % 400 = 0

/-- Days in a month of the proleptic Gregorian calendar. -/
def days_in_month (year month : Nat) : Nat :=
  if month = 2 then (if is_leap_year year then 29 else 28)
  else if month = 4 ∨ month = 6 ∨ month = 9 ∨ month = 11 then 30
  else 31

/-- Models the `time` crate validation `read_section1_referenced_at`
(src/lib.rs:494-510) relies on: `Month::try_from` accepts 1..=12,
`Date::from_calendar_date` accepts years 0..=9999 (from a `u16`) with a day
valid for the month, `Time::from_hms` accepts `h ≤ 23`, `m, s ≤ 59`. -/
def valid_datetime (year month day hour minute second : Nat) : Bool :=
  decide (year ≤ 9999) && decide (1 ≤ month) && decide (month ≤ 12) &&
  decide (1 ≤ day) && decide (day ≤ days_in_month year month) &&
  decide (hour ≤ 23) && decide (minute ≤ 59) && decide (second ≤ 59)

/-- Embeds `read_section0` (src/lib.rs:389-434): the `GRIB` magic (bytes
71, 82, 73, 66), two reserved bytes, the document domain, the GRIB version
and the skipped 8-byte total length. -/
def read_section0 (bytes : List Nat) : Option (List Nat) :=
  match bytes with
  | a :: b :: c :: d :: rest =>
    if a = 71 ∧ b = 82 ∧ c = 73 ∧ d = 66 then
      match read_u8 (rest.drop 2) with
      | none => none
      | some (document_domain, r1) =>
        if document_domain ≠ DOCUMENT_DOMAIN then none else
        match read_u8 r1 with
        | none => none
        | some (grib_version, r2) =>
          if grib_version ≠ GRIB_VERSION then none else
          some (r2.drop 8)
    else none
  | _ => none

/-- Embeds `read_section1` (src/lib.rs:441-528), including the calendar
validation of the reference date-time. -/
def read_section1 (bytes : List Nat) : Option (List Nat) :=
  match read_u8 (bytes.drop 4) with
  | none => none
  | some (section_number, r1) =>
  if section_number ≠ 1 then none else
  match read_u8 (r1.drop 4) with
  | none => none
  | some (master_version, r2) =>
  if master_version ≠ GRIB_MASTER_TABLE_VERSION then none else
  match read_u8 r2 with
  | none => none
  | some (local_version, r3) =>
  if local_version ≠ GRIB_LOCAL_TABLE_VERSION then none else
  match read_u16 (r3.drop 1) with
  | none => none
  | some (year, r4) =>
  match read_u8 r4 with
  | none => none
  | some (month, r5) =>
  match read_u8 r5 with
  | none => none
  | some (day, r6) =>
  match read_u8 r6 with
  | none => none
  | some (hour, r7) =>
  match read_u8 r7 with
  | none => none
  | some (minute, r8) =>
  match read_u8 r8 with
  | none => none
  | some (second, r9) =>
  if valid_datetime year month day hour minute second = false then none else
  match read_u8 r9 with
  | none => none
  | some (creation_status, r10) =>
  if creation_status ≠ CREATION_STATUS then none else
  match read_u8 r10 with
  | none => none
  | some (document_kind, r11) =>
  if document_kind ≠ DOCUMENT_KIND then none else
  some r11

/-- Embeds `read_section3` (src/lib.rs:553-725): validates the fixed
constants and returns the grid geometry.  The point count, the four edges
and the two increments are read without any further validation. -/
def read_section3 (bytes : List Nat) : Option (Section3 × List Nat) :=
  match read_u8 (bytes.drop 4) with
  | none => none
  | some (section_number, r1) =>
  if section_number ≠ 3 then none else
  match read_u8 r1 with
  | none => none
  | some (grid_system_definition, r2) =>
  if grid_system_definition ≠ GRID_SYSTEM_DEFINITION then none else
  match read_u32 r2 with
  | none => none
  | some (number_of_points, r3) =>
  match read_u16 (r3.drop 2) with
  | none => none
  | some (template, r4) =>
  if template ≠ GRID_SYSTEM_DEFINITION_TEMPLATE then none else
  match read_u8 r4 with
  | none => none
  | some (earth_figure, r5) =>
  if earth_figure ≠ EARTH_FIGURE then none else
  match read_u32 (r5.drop 15) with
  | none => none
  | some (points_at_vertical, r6) =>
  if points_at_vertical ≠ NUMBER_OF_POINT_AT_VERTICAL then none else
  match read_u32 r6 with
  | none => none
  | some (points_at_horizontal, r7) =>
  if points_at_horizontal ≠ NUMBER_OF_POINT_AT_HORIZONTAL then none else
  match read_u32 r7 with
  | none => none
  | some (creation_range_angle, r8) =>
  if creation_range_angle ≠ CREATION_RANGE_ANGLE then none else
  match read_u32 (r8.drop 4) with
  | none => none
  | some (northernmost, r9) =>
  match read_u32 r9 with
  | none => none
  | some (westernmost, r10) =>
  match read_u32 (r10.drop 1) with
  | none => none
  | some (southernmost, r11) =>
  match read_u32 r11 with
  | none => none
  | some (easternmost, r12) =>
  match read_u32 r12 with
  | none => none
  | some (horizontal_increment, r13) =>
  match read_u32 r13 with
  | none => none
  | some (vertical_increment, r14) =>
  match read_u8 r14 with
  | none => none
  | some (scanning_mode, r15) =>
  if scanning_mode ≠ SCANNING_MODE then none else
  some (⟨number_of_points, northernmost, westernmost, southernmost, easternmost,
    horizontal_increment, vertical_increment⟩, r15)

/-- Embeds `read_section4` (src/lib.rs:731-745): the template section is
skipped by its declared length (the `length - 5` subtraction wraps as `u32`). -/
def read_section4 (bytes : List Nat) : Option (List Nat) :=
  match read_u32 bytes with
  | none => none
  | some (length, r1) =>
  match read_u8 r1 with
  | none => none
  | some (section_number, r2) =>
  if section_number ≠ 4 then none else
  some (r2.drop (sub32 length 5))

/-- Reads `n` big-endian `u16` values (the level table loop of
`read_section5`, src/lib.rs:791-794). -/
def read_u16_list : Nat → List Nat → Option (List Nat × List Nat)
  | 0, bytes => some ([], bytes)
  | n + 1, bytes =>
    match read_u16 bytes with
    | none => none
    | some (v, r1) =>
      match read_u16_list n r1 with
      | none => none
      | some (vs, r2) => some (v :: vs, r2)

/-- Embeds `read_section5` (src/lib.rs:767-803): validates the fixed
constants; `max_level_at_file` and `max_level` are read and returned without
being compared.  The level count is `((length - 17) as u16) / 2`. -/
def read_section5 (bytes : List Nat) : Option (Section5 × List Nat) :=
  match read_u32 bytes with
  | none => none
  | some (length, r1) =>
  match read_u8 r1 with
  | none => none
  | some (section_number, r2) =>
  if section_number ≠ 5 then none else
  match read_u32 r2 with
  | none => none
  | some (number_of_points, r3) =>
  match read_u16 r3 with
  | none => none
  | some (template, r4) =>
  if template ≠ DOCUMENT_EXPRESSION_TEMPLATE then none else
  match read_u8 r4 with
  | none => none
  | some (bits_per_data, r5) =>
  if bits_per_data ≠ BITS_PER_DATA then none else
  match read_u16 r5 with
  | none => none
  | some (max_level_at_file, r6) =>
  match read_u16 r6 with
  | none => none
  | some (max_level, r7) =>
  match read_u8 r7 with
  | none => none
  | some (data_value_factor, r8) =>
  if data_value_factor ≠ DATA_VALUE_FACTOR then none else
  match read_u16_list ((sub32 length 17) % U16 / 2) r8 with
  | none => none
  | some (level_values, r9) =>
  some (⟨number_of_points, bits_per_data, max_level_at_file, max_level, level_values⟩, r9)

/-- Embeds `read_section6` (src/lib.rs:855-867). -/
def read_section6 (bytes : List Nat) : Option (List Nat) :=
  match read_u8 (bytes.drop 4) with
  | none => none
  | some (section_number, r1) =>
  if section_number ≠ 6 then none else
  some (r1.drop 1)

/-- The decoding session `Grib2Csv::new` builds (src/lib.rs:47-52): the two
parsed sections and the stream position just before section 7. -/
structure Grib2Csv where
  section3 : Section3
  section5 : Section5
  rest : List Nat

/-- The parse of sections 0 through 5, in the order `Grib2Csv::new` performs
it (src/lib.rs:143-154). -/
def parse_through_section5 (bytes : List Nat) : Option ((Section3 × Section5) × List Nat) :=
  match read_section0 bytes with
  | none => none
  | some r0 =>
  match read_section1 r0 with
  | none => none
  | some r1 =>
  match read_section3 r1 with
  | none => none
  | some (section3, r3) =>
  match read_section4 r3 with
  | none => none
  | some r4 =>
  match read_section5 r4 with
  | none => none
  | some (section5, r5) =>
  some ((section3, section5), r5)

/-- Embeds `Grib2Csv::new` (src/lib.rs:143-171): parse sections 0-5, fail
when the two recorded point counts differ, then read section 6.  No
run-length decoding is invoked anywhere in this definition. -/
def Grib2Csv.new (bytes : List Nat) : Option Grib2Csv :=
  match parse_through_section5 bytes with
  | none => none
  | some ((section3, section5), rest) =>
  if section3.number_of_points ≠ section5.number_of_points then none
  else
    match read_section6 rest with
    | none => none
    | some rest2 => some ⟨section3, section5, rest2⟩

/-- The four big-endian bytes of a `u32` (for building concrete streams). -/
def u32_bytes (n : Nat) : List Nat :=
  [n / 2 ^ 24 % 256, n / 2 ^ 16 % 256, n / 256 % 256, n % 256]

/-- The two big-endian bytes of a `u16` (for building concrete streams). -/
def u16_bytes (n : Nat) : List Nat :=
  [n / 256 % 256, n % 256]

/-- A concrete, accepted section 0: magic, reserved, domain 0, version 2,
total length (skipped). -/
def sec0_bytes : List Nat := [71, 82, 73, 66, 0, 0, 0, 2, 0, 0, 0, 0, 0, 0, 0, 0]

/-- A concrete, accepted section 1 with reference time 2023-01-01 00:00:00. -/
def sec1_bytes : List Nat :=
  [0, 0, 0, 0, 1, 0, 0, 0, 0, 2, 1, 0, 7, 231, 1, 1, 0, 0, 0, 0, 0]

/-- A concrete section 3 whose fixed constants are all accepted, carrying the
given point count, edges and increments. -/
def sec3_bytes (points north west south east hinc vinc : Nat) : List Nat :=
  [0, 0, 0, 0, 3, 0] ++ u32_bytes points ++ [0, 0] ++ [0, 0] ++ [4] ++
  List.replicate 15 0 ++ u32_bytes 2560 ++ u32_bytes 3360 ++ u32_bytes 0 ++
  [0, 0, 0, 0] ++ u32_bytes north ++ u32_bytes west ++ [0] ++ u32_bytes south ++
  u32_bytes east ++ u32_bytes hinc ++ u32_bytes vinc ++ [0]

/-- A concrete, accepted section 4 of declared length 5 (nothing skipped). -/
def sec4_bytes : List Nat := [0, 0, 0, 5, 4]

/-- A concrete section 5 of declared length 19 (one level-table entry, 10)
whose fixed constants are all accepted, carrying the given point count and
the two level maxima. -/
def sec5_bytes (points maxfile maxlevel : Nat) : List Nat :=
  [0, 0, 0, 19, 5] ++ u32_bytes points ++ [0, 200, 8] ++ u16_bytes maxfile ++
  u16_bytes maxlevel ++ [1] ++ u16_bytes 10

/-- A concrete, accepted section 6. -/
def sec6_bytes : List Nat := [0, 0, 0, 6, 6, 0]

/-- A stream whose section 3 records 1 point but whose section 5 records 2:
the cross-section consistency check of `Grib2Csv::new` must reject it. -/
def c4_bytes : List Nat :=
  sec0_bytes ++ sec1_bytes ++ sec3_bytes 1 0 5 0 3 1 1 ++ sec4_bytes ++ sec5_bytes 2 1 1

/-- The section 3 parsed from `c4_bytes` (and from `c8_bytes`): 1 point,
north 0, west 5, south 0, east 3, increments 1 and 1 - its westernmost is
not less than its easternmost, its southernmost is not less than its
northernmost, and its point count is not 2560 × 3360. -/
def c4_section3 : Section3 := ⟨1, 0, 5, 0, 3, 1, 1⟩

/-- The section 5 parsed from `c4_bytes`: 2 points, both level maxima 1. -/
def c4_section5 : Section5 := ⟨2, 8, 1, 1, [10]⟩

/-- A full stream (sections 0-6) with matching point counts (1 = 1) and the
degenerate geometry of `c4_section3`: `Grib2Csv::new` accepts it. -/
def c8_bytes : List Nat :=
  sec0_bytes ++ sec1_bytes ++ sec3_bytes 1 0 5 0 3 1 1 ++ sec4_bytes ++
  sec5_bytes 1 1 1 ++ sec6_bytes

/-- The session `Grib2Csv::new` builds from `c8_bytes`. -/
def c8_session : Grib2Csv := ⟨⟨1, 0, 5, 0, 3, 1, 1⟩, ⟨1, 8, 1, 1, [10]⟩, []⟩

/-- A full stream (sections 0-6) whose section 5 records
`max_level_at_file = 5` greater than `max_level = 2`: `Grib2Csv::new`
accepts it, there being no comparison of the two. -/
def c9_bytes : List Nat :=
  sec0_bytes ++ sec1_bytes ++ sec3_bytes 1 0 5 0 3 1 1 ++ sec4_bytes ++
  sec5_bytes 1 5 2 ++ sec6_bytes

/-- The session `Grib2Csv::new` builds from `c9_bytes`. -/
def c9_session : Grib2Csv := ⟨⟨1, 0, 5, 0, 3, 1, 1⟩, ⟨1, 8, 5, 2, [10]⟩, []⟩

/-- A tiny grid for exercising `convert_section7`: 1 point, north 5°,
west 1°, south 0°, east 2°, increments 1°/1°. -/
def c3_section3 : Section3 := ⟨1, 5000000, 1000000, 0, 2000000, 1000000, 1000000⟩

/-- Compression parameters for the tiny grid: `maxv = 10`, 8 bits per code
(so `lngu = 245`), one level value. -/
def c3_section5 : Section5 := ⟨1, 8, 10, 20, [7]⟩

/-- The unconstrained boundary (`BoundaryBuilder::default().build()`). -/
def boundary_none : Boundary := ⟨none, none, none, none⟩

/-- The flags `Grib2Csv::convert` opens the output file with
(src/lib.rs:184-187): write and create, no truncate. -/
structure OpenOptionsModel where
  write : Bool
  create : Bool
  truncate : Bool

/-- `OpenOptions::new().write(true).create(true)` - truncate is never set. -/
def convert_open_options : OpenOptionsModel := ⟨true, true, false⟩

/-- Model of the operating system's file semantics for opening an existing
file with the given options and writing `written` from offset 0: with
truncate the previous content is discarded first; without it the previous
content beyond the written range survives. -/
def file_after_write (opts : OpenOptionsModel) (previous written : List Nat) : List Nat :=
  let base := if opts.truncate then [] else previous
  written ++ base.drop written.length

/-- C6 counterexample: with bounds 130°/150° and 1° increments, the
missing-value advance started at (135°, 40°) with `count = 11` ends at
(146°, 40°), not at (130°, 39°) as the claim states. -/
theorem C6_count11_from_135_counterexample :
    move_lattice_for_missing_values 135000000 40000000 11 1000000 1000000
        130000000 150000000 = some (146000000, 40000000) ∧
    move_lattice_for_missing_values 135000000 40000000 11 1000000 1000000
        130000000 150000000 ≠ some (130000000, 39000000) := by
  constructor <;> decide

/-- C6 (amended): with bounds 130°/150° and 1° increments, the missing-value
advance started at (135°, 40°) ends at (145°, 40°) for `count = 10` and at
(146°, 40°) for `count = 11`; started at (145°, 40°) with `count = 50` it
ends at (132°, 37°). -/
theorem C6_concrete_cursor_advances :
    move_lattice_for_missing_values 135000000 40000000 10 1000000 1000000
        130000000 150000000 = some (145000000, 40000000) ∧
    move_lattice_for_missing_values 135000000 40000000 11 1000000 1000000
        130000000 150000000 = some (146000000, 40000000) ∧
    move_lattice_for_missing_values 145000000 40000000 50 1000000 1000000
        130000000 150000000 = some (132000000, 37000000) := by
  refine ⟨by decide, by decide, by decide⟩

/-- C1: at the valid grid position (130°, 40°) of the grid with bounds
130°/150° and 1° increments, a missing run of `count = 20` drives the
closed-form advance to (129°, 39°) (through a wrapped `u64` underflow of the
residual `0 - lon_increment`; a debug build panics there), while the naive
cell-by-cell simulation ends at (150°, 40°): the two disagree. -/
theorem C1_closed_form_diverges :
    move_lattice_for_missing_values 130000000 40000000 20 1000000 1000000
        130000000 150000000 = some (129000000, 39000000) ∧
    naive_move 20 130000000 40000000 1000000 1000000 130000000 150000000
        = (150000000, 40000000) := by
  constructor <;> decide

/-- C2 counterexample: a set of six codes with `maxv = 0`, `lngu = 255`
(`bits_per_code = 8`), head `0 ≤ maxv` and every continuation code `255 > maxv`,
whose mixed-radix repeat count `1 + Σ lngu^(i-1)·(codes[i]-(maxv+1))`
exceeds `2^32`: the decoder's `u32` arithmetic wraps, so it does not return
that pair. -/
theorem C2_overflow_counterexample :
    expand_run_length [0, 255, 255, 255, 255, 255] 0 255 ≠
      some (0, 1 + mixed_radix_count [255, 255, 255, 255, 255] 0 255) := by
  decide

/-- Every second component of an entry of `l.enum` is an element of `l`. -/
theorem snd_mem_of_mem_enum {l : List Nat} {p : Nat × Nat} (hp : p ∈ l.enum) :
    p.2 ∈ l := by
  have h2 := List.mem_map_of_mem Prod.snd hp
  rwa [List.enum_map_snd] at h2

/-- The wrapped `u32` per-digit terms of the decoder sum to the mathematical
mixed-radix terms modulo `2^32`. -/
theorem wrapped_sum_eq (maxv lngu : Nat) :
    ∀ l : List (Nat × Nat), (∀ p ∈ l, maxv < p.2 ∧ p.2 < U16) →
      ((l.map fun p => mul32 (pow32 lngu p.1) (sub32 p.2 (maxv + 1))).sum) % U32
        = ((l.map fun p => lngu ^ p.1 * (p.2 - (maxv + 1))).sum) % U32 := by
  intro l
  induction l with
  | nil => intro _; rfl
  | cons q qs ih =>
    intro h
    have hq := h q (List.mem_cons_self q qs)
    have hqs := fun p hp => h p (List.mem_cons_of_mem q hp)
    have hU : U16 < U32 := by decide
    have hm1 : maxv + 1 < U32 := by omega
    have hsub : sub32 q.2 (maxv + 1) = q.2 - (maxv + 1) := by
      unfold sub32
      rw [Nat.mod_eq_of_lt hm1]
      have h1 : q.2 + U32 - (maxv + 1) = U32 + (q.2 - (maxv + 1)) := by omega
      rw [h1, Nat.add_mod_left, Nat.mod_eq_of_lt (by omega)]
    have hterm : mul32 (pow32 lngu q.1) (q.2 - (maxv + 1))
        = lngu ^ q.1 * (q.2 - (maxv + 1)) % U32 := by
      unfold mul32 pow32
      rw [Nat.mod_mul_mod]
    simp only [List.map_cons, List.sum_cons]
    rw [hsub, hterm]
    calc (lngu ^ q.1 * (q.2 - (maxv + 1)) % U32
            + ((qs.map fun p => mul32 (pow32 lngu p.1) (sub32 p.2 (maxv + 1))).sum)) % U32
        = (lngu ^ q.1 * (q.2 - (maxv + 1)) % U32 % U32
            + ((qs.map fun p => mul32 (pow32 lngu p.1) (sub32 p.2 (maxv + 1))).sum) % U32)
            % U32 := Nat.add_mod _ _ _
      _ = (lngu ^ q.1 * (q.2 - (maxv + 1)) % U32
            + ((qs.map fun p => lngu ^ p.1 * (p.2 - (maxv + 1))).sum) % U32) % U32 := by
            rw [Nat.mod_mod_of_dvd _ dvd_rfl, ih hqs]
      _ = (lngu ^ q.1 * (q.2 - (maxv + 1))
            + ((qs.map fun p => lngu ^ p.1 * (p.2 - (maxv + 1))).sum)) % U32 := by
            rw [Nat.mod_add_mod, Nat.add_mod_mod]

/-- C2 (amended): for a set whose head is `≤ maxv` and whose continuation
codes are each `> maxv` (all `u16` values), the decoder returns the head
together with the mixed-radix repeat count `1 + Σ lngu^(i-1)·(codes[i]-(maxv+1))`
reduced modulo `2^32` (so exactly that count whenever it fits in a `u32`);
for a one-element set the count is 1, which the same formula gives. -/
theorem C2_expand_run_length_mixed_radix (v : Nat) (rest : List Nat) (maxv lngu : Nat)
    (hv : v ≤ maxv) (hrest : ∀ x ∈ rest, maxv < x ∧ x < U16) :
    expand_run_length (v :: rest) maxv lngu
      = some (v, (1 + mixed_radix_count rest maxv lngu) % U32) := by
  have hnotlt : ¬ maxv < v := by omega
  by_cases hr : rest = []
  · subst hr
    have h1 : (1 + mixed_radix_count [] maxv lngu) % U32 = 1 := by
      simp only [mixed_radix_count, List.enum_nil, List.map_nil, List.sum_nil]
      decide
    simp only [expand_run_length, if_neg hnotlt, if_pos rfl, if_true, h1]
  · have henum : ∀ p ∈ rest.enum, maxv < p.2 ∧ p.2 < U16 :=
      fun p hp => hrest p.2 (snd_mem_of_mem_enum hp)
    have hkey := wrapped_sum_eq maxv lngu rest.enum henum
    simp only [expand_run_length, if_neg hnotlt, if_neg hr, Option.some.injEq,
      Prod.mk.injEq, true_and]
    unfold add32
    rw [Nat.mod_add_mod, Nat.add_comm _ 1]
    exact Nat.ModEq.add_left 1 hkey

/-- C2 witness: the spec's worked example `[0, 13, 12]` with `maxv = 10`,
`lngu = 5` decodes to level 0 repeated `(1 + 2 + 5) = 8` times. -/
theorem C2_expand_run_length_witness :
    expand_run_length [0, 13, 12] 10 5
      = some (0, (1 + mixed_radix_count [13, 12] 10 5) % U32) :=
  C2_expand_run_length_mixed_radix 0 [13, 12] 10 5 (by decide) (by decide)

/-- C7: `Boundary::contains` returns `true` exactly when the coordinate is
not strictly outside any configured bound: equality with a configured bound
is contained (bounds are inclusive) and an absent bound never excludes. -/
theorem C7_boundary_contains_iff (b : Boundary) (longitude latitude : Nat) :
    b.contains longitude latitude = true ↔ inside_boundary b longitude latitude := by
  obtain ⟨n, s, w, e⟩ := b
  cases n <;> cases s <;> cases w <;> cases e <;>
    simp [Boundary.contains, inside_boundary]

/-- Every set the loop's decomposition produces is non-empty with first
element `≤ maxv`, provided the already-open set (if any) is and, when no set
is open, the next codeword is `≤ maxv`. -/
theorem split_runs_from_head_ok (maxv : Nat) :
    ∀ (bytes acc : List Nat),
      (acc = [] → bytes.headD 0 ≤ maxv) →
      (acc ≠ [] → run_head_ok maxv acc) →
      ∀ run ∈ split_runs_from maxv bytes acc, run_head_ok maxv run := by
  intro bytes
  induction bytes with
  | nil =>
    intro acc h1 h2 run hrun
    by_cases ha : acc = []
    · subst ha
      simp [split_runs_from] at hrun
    · simp only [split_runs_from, if_neg ha, List.mem_singleton] at hrun
      exact hrun ▸ h2 ha
  | cons value rest ih =>
    intro acc h1 h2 run hrun
    by_cases hc : value ≤ maxv ∧ acc ≠ []
    · simp only [split_runs_from, if_pos hc] at hrun
      rcases List.mem_cons.mp hrun with h | h
      · exact h ▸ h2 hc.2
      · refine ih [value] (fun habs => absurd habs (by simp)) (fun _ => ?_) run h
        simpa [run_head_ok] using hc.1
    · simp only [split_runs_from, if_neg hc] at hrun
      refine ih (acc ++ [value]) (fun habs => absurd habs (by simp)) (fun _ => ?_) run hrun
      by_cases ha : acc = []
      · subst ha
        have hv := h1 rfl
        simp only [List.headD_cons] at hv
        simpa [run_head_ok] using hv
      · have hh := h2 ha
        cases acc with
        | nil => exact absurd rfl ha
        | cons a as => simpa [run_head_ok] using hh

/-- C5 (amended): every code sequence the `convert` loop hands to
`expand_run_length` is non-empty, and provided the first codeword of the
compressed stream is `≤ maxv` (`headD` is trivially so for the empty stream),
every sequence also has first element `≤ maxv`, so the decoder's precondition
assertion succeeds on each of them. -/
theorem C5_sets_satisfy_decoder_precondition (maxv lngu : Nat) (bytes : List Nat)
    (h : bytes.headD 0 ≤ maxv) :
    ∀ run ∈ split_runs_from maxv bytes [], run_head_ok maxv run ∧
      (expand_run_length run maxv lngu).isSome = true := by
  intro run hrun
  have hok := split_runs_from_head_ok maxv bytes [] (fun _ => h)
    (fun habs => absurd rfl habs) run hrun
  refine ⟨hok, ?_⟩
  cases run with
  | nil => simp [run_head_ok] at hok
  | cons v rest2 =>
    have hv : v ≤ maxv := by simpa [run_head_ok] using hok
    simp only [expand_run_length, if_neg (by omega : ¬ maxv < v)]
    by_cases hr : rest2 = [] <;> simp [hr]

/-- C5 witness: in the stream `[3, 11, 4]` with `maxv = 10` the walker's
first set is `[3, 11]`, which is non-empty, headed by `3 ≤ 10`, and accepted
by the decoder. -/
theorem C5_decoder_precondition_witness :
    run_head_ok 10 [3, 11] ∧ (expand_run_length [3, 11] 10 245).isSome = true :=
  C5_sets_satisfy_decoder_precondition 10 245 [3, 11, 4] (by decide) [3, 11] (by decide)

/-- C5 counterexample: a compressed stream whose first codeword `11` exceeds
`maxv = 10` makes the walker pass the set `[11]` to the decoder, whose
precondition assertion fails (`none`, a panic): with the tiny session this
aborts `convert`. -/
theorem C5_first_codeword_counterexample :
    split_runs_from 10 [11] [] = [[11]] ∧
    expand_run_length [11] 10 245 = none ∧
    convert_section7 c3_section3 c3_section5 boundary_none [11] = none := by
  refine ⟨by decide, rfl, rfl⟩

/-- The read count the `convert` loop (followed by the trailing decode)
accumulates equals the initial count plus the sum of the decoded repeat
counts over the loop's run decomposition, as a `u32`. -/
theorem convert_read_total (s3 : Section3) (s5 : Section5) (boundary : Boundary)
    (maxv lngu : Nat) :
    ∀ (bytes : List Nat) (st stF : S7State), st.number_of_read < U32 →
      (convert_loop s3 s5 boundary maxv lngu st bytes).bind
        (convert_finish s3 s5 boundary maxv lngu) = some stF →
      stF.number_of_read
        = (st.number_of_read
            + ((split_runs_from maxv bytes st.run_length).map (run_count maxv lngu)).sum)
            % U32 := by
  intro bytes
  induction bytes with
  | nil =>
    intro st stF hlt h
    simp only [convert_loop, Option.some_bind] at h
    by_cases hrl : st.run_length = []
    · unfold convert_finish at h
      rw [if_pos hrl] at h
      injection h with h
      subst h
      simp [split_runs_from, hrl, Nat.mod_eq_of_lt hlt]
    · unfold convert_finish at h
      rw [if_neg hrl] at h
      cases hexp : expand_run_length st.run_length maxv lngu with
      | none => rw [hexp] at h; cases h
      | some lc =>
        rw [hexp] at h
        dsimp only at h
        cases hout : output_values s3 s5 boundary lc.1 lc.2 st.longitude st.latitude with
        | none => rw [hout] at h; cases h
        | some out =>
          rw [hout] at h
          injection h with h
          subst h
          simp [split_runs_from, hrl, run_count, hexp, add32]
  | cons value rest ih =>
    intro st stF hlt h
    simp only [convert_loop] at h
    by_cases hc : value ≤ maxv ∧ st.run_length ≠ []
    · unfold convert_step at h
      rw [if_pos hc] at h
      cases hexp : expand_run_length st.run_length maxv lngu with
      | none => rw [hexp] at h; simp at h
      | some lc =>
        rw [hexp] at h
        dsimp only at h
        cases hout : output_values s3 s5 boundary lc.1 lc.2 st.longitude st.latitude with
        | none => rw [hout] at h; simp at h
        | some out =>
          rw [hout] at h
          dsimp only at h
          have hlt2 : add32 st.number_of_read lc.2 < U32 := Nat.mod_lt _ (by decide)
          have hih := ih ⟨[value], add32 st.number_of_read lc.2, out.2.1, out.2.2,
            st.rows ++ out.1⟩ stF hlt2 h
          dsimp only at hih
          rw [hih]
          have hrc : run_count maxv lngu st.run_length = lc.2 := by simp [run_count, hexp]
          simp only [split_runs_from, if_pos hc, List.map_cons, List.sum_cons, hrc]
          simp only [add32]
          rw [Nat.mod_add_mod, Nat.add_assoc]
    · unfold convert_step at h
      rw [if_neg hc] at h
      dsimp only at h
      have hih := ih ⟨st.run_length ++ [value], st.number_of_read, st.longitude,
        st.latitude, st.rows⟩ stF hlt h
      dsimp only at hih
      rw [hih]
      simp only [split_runs_from, if_neg hc]

/-- C3: whenever the section-7 processing of `convert` completes without a
panic, it returns the count-mismatch error exactly when the sum of the
decoded repeat counts over all runs of the stream (as a `u32`) differs from
section 3's recorded point count; when they agree it proceeds to the
end-marker stage with the emitted rows. -/
theorem C3_convert_error_iff_count_mismatch (s3 : Section3) (s5 : Section5)
    (boundary : Boundary) (bytes : List Nat) (r : Except Unit (List (Nat × Nat × Nat)))
    (h : convert_section7 s3 s5 boundary bytes = some r) :
    r = Except.error () ↔
      total_run_count s5.max_level_at_file (convert_lngu s5) bytes
        ≠ s3.number_of_points := by
  unfold convert_section7 at h
  cases hl : convert_loop s3 s5 boundary s5.max_level_at_file (convert_lngu s5)
      ⟨[], 0, s3.westernmost, s3.northernmost, []⟩ bytes with
  | none => rw [hl] at h; cases h
  | some st1 =>
    rw [hl] at h
    dsimp only at h
    cases hf : convert_finish s3 s5 boundary s5.max_level_at_file (convert_lngu s5) st1 with
    | none => rw [hf] at h; cases h
    | some st2 =>
      rw [hf] at h
      dsimp only at h
      have hbind : (convert_loop s3 s5 boundary s5.max_level_at_file (convert_lngu s5)
          ⟨[], 0, s3.westernmost, s3.northernmost, []⟩ bytes).bind
          (convert_finish s3 s5 boundary s5.max_level_at_file (convert_lngu s5))
          = some st2 := by
        rw [hl, Option.some_bind, hf]
      have hread := convert_read_total s3 s5 boundary s5.max_level_at_file (convert_lngu s5)
        bytes ⟨[], 0, s3.westernmost, s3.northernmost, []⟩ st2
        (by show (0 : Nat) < U32; decide) hbind
      dsimp only at hread
      rw [Nat.zero_add] at hread
      have htot : total_run_count s5.max_level_at_file (convert_lngu s5) bytes
          = st2.number_of_read := by
        rw [total_run_count, hread]
      by_cases hne : st2.number_of_read ≠ s3.number_of_points
      · rw [if_pos hne] at h
        injection h with h
        subst h
        rw [htot]
        exact ⟨fun _ => hne, fun _ => rfl⟩
      · rw [if_neg hne] at h
        injection h with h
        subst h
        push_neg at hne
        constructor
        · intro habs
          exact Except.noConfusion habs
        · intro habs
          exact absurd (htot.trans hne) habs

/-- C3 witness: the one-byte stream `[0]` on the tiny session decodes to one
run of one missing cell; the total 1 equals the recorded point count 1, so
`convert` returns the rows without the count-mismatch error. -/
theorem C3_convert_count_check_witness :
    ((Except.ok [] : Except Unit (List (Nat × Nat × Nat))) = Except.error () ↔
      total_run_count c3_section5.max_level_at_file (convert_lngu c3_section5) [0]
        ≠ c3_section3.number_of_points) :=
  C3_convert_error_iff_count_mismatch c3_section3 c3_section5 boundary_none [0]
    (Except.ok []) rfl

/-- C4: whenever sections 0-5 parse successfully and the two recorded point
counts differ, `Grib2Csv::new` fails.  `Grib2Csv.new` contains no call to
`expand_run_length`: the failure precedes any run-length decoding, which
only `convert` performs. -/
theorem C4_count_mismatch_aborts_open (bytes : List Nat)
    (p : (Section3 × Section5) × List Nat)
    (hp : parse_through_section5 bytes = some p)
    (hne : p.1.1.number_of_points ≠ p.1.2.number_of_points) :
    Grib2Csv.new bytes = none := by
  obtain ⟨⟨s3, s5⟩, rest⟩ := p
  unfold Grib2Csv.new
  rw [hp]
  dsimp only
  rw [if_pos hne]

/-- C4 witness: the concrete stream `c4_bytes` parses through section 5 with
point counts 1 (section 3) and 2 (section 5), and `Grib2Csv::new` rejects
it. -/
theorem C4_count_mismatch_witness :
    parse_through_section5 c4_bytes = some ((c4_section3, c4_section5), []) ∧
    Grib2Csv.new c4_bytes = none :=
  ⟨rfl, C4_count_mismatch_aborts_open c4_bytes ((c4_section3, c4_section5), []) rfl
    (by decide)⟩

/-- C8 (amended): what a successful open does guarantee across sections is
that the grid-definition and data-representation point counts are equal; the
relations `westernmost < easternmost`, `southernmost < northernmost` and
`point_count = 2560 × 3360` are never checked. -/
theorem C8_open_equates_point_counts (bytes : List Nat) (g : Grib2Csv)
    (h : Grib2Csv.new bytes = some g) :
    g.section3.number_of_points = g.section5.number_of_points := by
  unfold Grib2Csv.new at h
  cases hp : parse_through_section5 bytes with
  | none => rw [hp] at h; cases h
  | some p =>
    obtain ⟨⟨s3, s5⟩, rest⟩ := p
    rw [hp] at h
    dsimp only at h
    by_cases hne : s3.number_of_points ≠ s5.number_of_points
    · rw [if_pos hne] at h; cases h
    · rw [if_neg hne] at h
      push_neg at hne
      cases h6 : read_section6 rest with
      | none => rw [h6] at h; cases h
      | some r2 =>
        rw [h6] at h
        injection h with h
        subst h
        exact hne

/-- C8 witness: the stream `c8_bytes` opens successfully into `c8_session`,
whose two point counts are equal. -/
theorem C8_point_count_equality_witness :
    Grib2Csv.new c8_bytes = some c8_session ∧
    c8_session.section3.number_of_points = c8_session.section5.number_of_points :=
  ⟨rfl, C8_open_equates_point_counts c8_bytes c8_session rfl⟩

/-- C8 counterexample: `c8_bytes` opens successfully although its geometry
has `westernmost = 5 ≥ easternmost = 3`, `southernmost = 0 ≥
northernmost = 0` and `point_count = 1 ≠ 2560 × 3360`: none of the claimed
invariants is enforced by a successful open. -/
theorem C8_unchecked_geometry_counterexample :
    Grib2Csv.new c8_bytes = some c8_session ∧
    ¬(c8_session.section3.westernmost < c8_session.section3.easternmost) ∧
    ¬(c8_session.section3.southernmost < c8_session.section3.northernmost) ∧
    c8_session.section3.number_of_points ≠ 2560 * 3360 :=
  ⟨rfl, by decide, by decide, by decide⟩

/-- C9 (amended): `read_section5` returns `max_level_at_file` and `max_level`
without comparing them, and open performs no such check either: a section 5
recording `max_level_at_file = 5 > max_level = 2` parses, and the whole
stream opens. -/
theorem C9_section5_levels_unvalidated :
    read_section5 (sec5_bytes 1 5 2) = some (⟨1, 8, 5, 2, [10]⟩, []) ∧
    (Grib2Csv.new c9_bytes).isSome = true :=
  ⟨rfl, rfl⟩

/-- C9 counterexample: the stream `c9_bytes`, whose section 5 records
`max_level_at_file = 5` greater than `max_level = 2`, opens successfully -
open does not fail on the violated inequality. -/
theorem C9_no_level_check_counterexample :
    Grib2Csv.new c9_bytes = some c9_session ∧
    c9_session.section5.max_level < c9_session.section5.max_level_at_file :=
  ⟨rfl, by decide⟩

/-- C10: with `convert`'s open options (write + create, no truncate), writing
fewer bytes than the file previously held leaves the previous trailing bytes
in place: the tail beyond the written range is the previous tail, the length
stays the previous length, and the resulting content is not just the written
bytes. -/
theorem C10_no_truncate_preserves_trailing (previous written : List Nat)
    (h : written.length < previous.length) :
    (file_after_write convert_open_options previous written).drop written.length
        = previous.drop written.length ∧
    (file_after_write convert_open_options previous written).length = previous.length ∧
    file_after_write convert_open_options previous written ≠ written := by
  have hfull : file_after_write convert_open_options previous written
      = written ++ previous.drop written.length := by
    simp [file_after_write, convert_open_options]
  refine ⟨?_, ?_, ?_⟩
  · rw [hfull]
    exact List.drop_left written (previous.drop written.length)
  · rw [hfull]
    simp only [List.length_append, List.length_drop]
    omega
  · rw [hfull]
    intro habs
    have hlen := congrArg List.length habs
    simp only [List.length_append, List.length_drop] at hlen
    omega

/-- C10 witness: a previous file `[1, 2, 3]` overwritten with `[9]` becomes
`[9, 2, 3]`: the old trailing bytes `[2, 3]` remain. -/
theorem C10_trailing_bytes_witness :
    (file_after_write convert_open_options [1, 2, 3] [9]).drop [9].length
        = [1, 2, 3].drop [9].length ∧
    (file_after_write convert_open_options [1, 2, 3] [9]).length = [1, 2, 3].length ∧
    file_after_write convert_open_options [1, 2, 3] [9] ≠ [9] :=
  C10_no_truncate_preserves_trailing [1, 2, 3] [9] (by decide)
